import Mathlib

set_option linter.unusedVariables false

/-!
Shallow embedding of the token-sale / profit-distribution backend.

Numeric fields (token amounts, prices, profit shares) are JavaScript
numbers in the source; they are modelled here as exact rationals (ℚ).
Status columns are modelled as the literal strings the source stores
(active, completed, cancelled, pending, ...).  Each service
method runs inside a single SQL transaction that is rolled back on any
thrown error, so an operation is modelled as a function from the
committed database state to (result, committed database state): a
failing run returns the original state.
-/

namespace BlockchainBackend

/-- Row of the `projects` table (see ProjectService.createProject). -/
structure Project where
  project_id : String
  name : String
  description : String
  total_tokens : ℚ
  available_tokens : ℚ
  token_price : ℚ
  initial_capital : ℚ
  admin_id : Nat
  status : String
deriving DecidableEq

/-- Row of the `tokens` table (a holding; TokenController.purchaseTokens inserts these). -/
structure TokenRecord where
  token_id : String
  project_id : String
  user_id : Nat
  amount : ℚ
  price_per_token : ℚ
  total_value : ℚ
  status : String
  blockchain_hash : String
deriving DecidableEq

/-- Row of the `transactions` table. -/
structure TransactionRecord where
  transaction_id : String
  from_user_id : Nat
  to_user_id : Nat
  project_id : String
  token_amount : ℚ
  total_value : ℚ
  transaction_type : String
  status : String
  blockchain_hash : String
deriving DecidableEq

/-- Row of the `profit_distributions` table. -/
structure DistributionRecord where
  project_id : String
  total_profit : ℚ
  admin_share : ℚ
  user_share : ℚ
  profit_per_token : ℚ
  status : String
  blockchain_hash : Option String
deriving DecidableEq

/-- Row of the `user_profit_records` table. -/
structure UserProfitRecord where
  user_id : Nat
  project_id : String
  token_amount : ℚ
  profit_amount : ℚ
deriving DecidableEq

/-- Committed state of the relational store. -/
structure DBState where
  projects : List Project
  tokens : List TokenRecord
  transactions : List TransactionRecord
  profit_distributions : List DistributionRecord
  user_profit_records : List UserProfitRecord
deriving DecidableEq

def emptyDB : DBState := ⟨[], [], [], [], []⟩

/-- First row of `SELECT ... FROM projects WHERE project_id = ?`. -/
def findProject (db : DBState) (pid : String) : Option Project :=
  db.projects.find? (fun p => p.project_id = pid)

/-- First row of `SELECT * FROM projects WHERE project_id = ? AND status = "active"`. -/
def findActiveProject (db : DBState) (pid : String) : Option Project :=
  db.projects.find? (fun p => p.project_id = pid ∧ p.status = "active")

/-- Rows of `tokens` with the given project id and status active. -/
def activeTokens (db : DBState) (pid : String) : List TokenRecord :=
  db.tokens.filter (fun t => t.project_id = pid ∧ t.status = "active")

/-- Total amount held in active holdings of the project. -/
def activeHoldingSum (db : DBState) (pid : String) : ℚ :=
  ((activeTokens db pid).map TokenRecord.amount).sum

/-- One step of the grouped sum `GROUP BY user_id` with `SUM(amount)`: add a row into the
grouped accumulator, keeping first-appearance order of user ids. -/
def insertHolder (acc : List (Nat × ℚ)) (t : TokenRecord) : List (Nat × ℚ) :=
  if acc.any (fun h => h.1 = t.user_id) then
    acc.map (fun h => if h.1 = t.user_id then (h.1, h.2 + t.amount) else h)
  else acc ++ [(t.user_id, t.amount)]

/-- Grouped holder query `SELECT user_id, SUM(amount) FROM tokens WHERE
project_id = ? AND status = "active" GROUP BY user_id`: pairs of user_id and
summed active amount. -/
def tokenHolders (db : DBState) (pid : String) : List (Nat × ℚ) :=
  (activeTokens db pid).foldl insertHolder []

/-- ProjectService.createProject: inserts a project row with
`available_tokens = total_tokens` and status active. -/
def createProject (db : DBState) (project_id name description : String)
    (total_tokens token_price initial_capital : ℚ) (adminId : Nat) :
    DBState × Project :=
  let p : Project :=
    ⟨project_id, name, description, total_tokens, total_tokens, token_price,
      initial_capital, adminId, "active"⟩
  ({ db with projects := db.projects ++ [p] }, p)

/-- Failure modes of TokenController.purchaseTokens, one per response path. -/
inductive PurchaseError where
  /-- HTTP 400: `!project_id || !amount || amount <= 0`. -/
  | invalidInput : PurchaseError
  /-- HTTP 404: project not found or not active. -/
  | projectNotFound : PurchaseError
  /-- HTTP 400: insufficient tokens available (InsufficientSupply in the spec). -/
  | insufficientTokens : PurchaseError
  /-- HTTP 500: the blockchain call threw; the transaction was rolled back. -/
  | ledgerFailure (msg : String) : PurchaseError
deriving DecidableEq

/-- The HTTP 201 response body of a successful purchase. -/
structure PurchaseOk where
  token_id : String
  project_id : String
  amount : ℚ
  total_value : ℚ
  blockchain_hash : String
deriving DecidableEq

/-- The three committed writes of a successful purchase: insert the token
record (the Holding), decrement `available_tokens` on the project rows, and
insert the completed purchase transaction. -/
def purchaseCommit (db : DBState) (pid : String) (amount : ℚ) (buyerId : Nat)
    (project : Project) (hash token_id transaction_id : String) : DBState :=
  { db with
    tokens := db.tokens ++
      [⟨token_id, pid, buyerId, amount, project.token_price,
        amount * project.token_price, "active", hash⟩]
    transactions := db.transactions ++
      [⟨transaction_id, project.admin_id, buyerId, pid, amount,
        amount * project.token_price, "purchase", "completed", hash⟩]
    projects := db.projects.map (fun p =>
      if p.project_id = pid then
        { p with available_tokens := p.available_tokens - amount }
      else p) }

/-- TokenController.purchaseTokens.  `ledger` is the outcome of
`blockchainService.createToken` (hash on success); `token_id` and
`transaction_id` stand for the generated identifiers.  All inserts and the
supply decrement happen in one transaction rolled back on error, so every
failing path returns the committed state unchanged. -/
def purchaseTokens (db : DBState) (project_id : Option String) (amount : ℚ)
    (buyerId : Nat) (ledger : Except String String)
    (token_id transaction_id : String) :
    Except PurchaseError PurchaseOk × DBState :=
  match project_id with
  | none => (.error .invalidInput, db)
  | some pid =>
    if pid = "" ∨ amount ≤ 0 then (.error .invalidInput, db)
    else
      match findActiveProject db pid with
      | none => (.error .projectNotFound, db)
      | some project =>
        if project.available_tokens < amount then
          (.error .insufficientTokens, db)
        else
          match ledger with
          | .error e => (.error (.ledgerFailure e), db)
          | .ok hash =>
            (.ok ⟨token_id, pid, amount, amount * project.token_price, hash⟩,
              purchaseCommit db pid amount buyerId project hash token_id
                transaction_id)

/-- The `newProfit * 0.30` term of ProfitService.distributeProfit (exact arithmetic). -/
def adminShareOf (newProfit : ℚ) : ℚ := newProfit * (30 / 100)

/-- The `newProfit * 0.70` term of ProfitService.distributeProfit (exact arithmetic). -/
def userShareOf (newProfit : ℚ) : ℚ := newProfit * (70 / 100)

/-- One entry of the `userProfits` array in the distribution response. -/
structure UserProfit where
  user_id : Nat
  token_amount : ℚ
  profit_amount : ℚ
deriving DecidableEq

/-- The `distributionData` object returned by ProfitService.distributeProfit. -/
structure DistributionData where
  projectId : String
  initialCapital : ℚ
  totalRevenue : ℚ
  newProfit : ℚ
  adminShare : ℚ
  userTotalShare : ℚ
  profitPerToken : ℚ
  totalUserTokens : ℚ
  userProfits : List UserProfit
  blockchainHash : String
  projectStatus : String
deriving DecidableEq

/-- ProfitService.distributeProfit.  `ledger` is the outcome of
`blockchainService.addDividenProfit`.  The whole method body runs in one
transaction: the pending `profit_distributions` insert, the ledger call, the
completed update, the per-holder inserts and the project status flip either
all commit or are all rolled back, so a failing run (any thrown error,
including a ledger failure) leaves the committed state unchanged. -/
def distributeProfit (db : DBState) (projectId : String)
    (initialCapital totalRevenue newProfit : ℚ) (adminId : Nat)
    (ledger : Except String String) :
    Except String DistributionData × DBState :=
  match findProject db projectId with
  | none => (.error "Project not found", db)
  | some project =>
    if project.status = "completed" then
      (.error "Cannot distribute profit for completed project", db)
    else if project.available_tokens > 0 then
      (.error "Cannot distribute profit until all tokens are sold", db)
    else
      let adminShare := adminShareOf newProfit
      let userTotalShare := userShareOf newProfit
      let holders := tokenHolders db projectId
      if holders = [] then
        (.error "No token holders found for this project", db)
      else
        let totalUserTokens := (holders.map Prod.snd).sum
        let profitPerToken := userTotalShare / totalUserTokens
        match ledger with
        | .error e => (.error e, db)
        | .ok hash =>
          let distribution : DistributionRecord :=
            ⟨projectId, newProfit, adminShare, userTotalShare, profitPerToken,
              "completed", some hash⟩
          let userProfits : List UserProfit := holders.map (fun h =>
            ⟨h.1, h.2, h.2 * profitPerToken⟩)
          let newRecords : List UserProfitRecord := holders.map (fun h =>
            ⟨h.1, projectId, h.2, h.2 * profitPerToken⟩)
          let db' : DBState :=
            { db with
              profit_distributions := db.profit_distributions ++ [distribution]
              user_profit_records := db.user_profit_records ++ newRecords
              projects := db.projects.map (fun p =>
                if p.project_id = projectId then { p with status := "completed" }
                else p) }
          (.ok ⟨projectId, initialCapital, totalRevenue, newProfit, adminShare,
                userTotalShare, profitPerToken, totalUserTokens, userProfits,
                hash, "completed"⟩, db')

/-- Result object of ProjectService.isProjectReadyForDistribution.
`tokenHolderCount` is only present on the ready=true branch. -/
structure ReadinessResult where
  ready : Bool
  reason : String
  projectExists : Bool
  tokensSold : ℚ
  totalTokens : ℚ
  availableTokens : ℚ
  tokenHolderCount : Option Nat
deriving DecidableEq

/-- ProjectService.isProjectReadyForDistribution.  The store argument is
`Except`-valued to model the try/catch around the two queries: a thrown
database error is caught and converted into a ready=false result.  The
sold-out reason in the source interpolates the counts; the constant prefix
is kept here, the counts are also returned as fields. -/
def isProjectReadyForDistribution (store : Except String DBState)
    (projectId : String) : ReadinessResult :=
  match store with
  | .error e =>
    ⟨false, "Database error: " ++ e, false, 0, 0, 0, none⟩
  | .ok db =>
    match findProject db projectId with
    | none => ⟨false, "Project not found", false, 0, 0, 0, none⟩
    | some project =>
      if project.status = "completed" then
        ⟨false, "Project is already completed", true,
          project.total_tokens - project.available_tokens,
          project.total_tokens, project.available_tokens, none⟩
      else if project.status = "cancelled" then
        ⟨false, "Project is cancelled", true,
          project.total_tokens - project.available_tokens,
          project.total_tokens, project.available_tokens, none⟩
      else if project.available_tokens > 0 then
        ⟨false, "Cannot distribute profit until all tokens are sold", true,
          project.total_tokens - project.available_tokens,
          project.total_tokens, project.available_tokens, none⟩
      else
        if (tokenHolders db projectId).length = 0 then
          ⟨false, "No active token holders found for this project", true,
            project.total_tokens - project.available_tokens,
            project.total_tokens, project.available_tokens, none⟩
        else
          ⟨true, "Project is ready for profit distribution", true,
            project.total_tokens - project.available_tokens,
            project.total_tokens, project.available_tokens,
            some (tokenHolders db projectId).length⟩

/-- Failure modes of ProfitController.distributeProfit, one per response path. -/
inductive ControllerError where
  /-- HTTP 400: `!projectId || !initialCapital || !totalRevenue || !newProfit`. -/
  | missingFields : ControllerError
  /-- HTTP 400: `newProfit <= 0`. -/
  | invalidProfit : ControllerError
  /-- HTTP 400: the readiness check reported ready=false. -/
  | notReady (reason : String) (tokensSold totalTokens availableTokens : ℚ) : ControllerError
  /-- HTTP 500: the service threw. -/
  | serviceError (msg : String) : ControllerError
deriving DecidableEq

/-- ProfitController.distributeProfit.  Request body fields are `Option`s
(`none` = absent); JavaScript falsiness of a present number is `= 0`, of a
present string is `= ""`. -/
def controllerDistributeProfit (db : DBState) (projectId : Option String)
    (initialCapital totalRevenue newProfit : Option ℚ) (adminId : Nat)
    (ledger : Except String String) :
    Except ControllerError DistributionData × DBState :=
  match projectId, initialCapital, totalRevenue, newProfit with
  | some pid, some ic, some tr, some np =>
    if pid = "" ∨ ic = 0 ∨ tr = 0 ∨ np = 0 then
      (.error .missingFields, db)
    else if np ≤ 0 then
      (.error .invalidProfit, db)
    else
      let readiness := isProjectReadyForDistribution (.ok db) pid
      if readiness.ready then
        match distributeProfit db pid ic tr np adminId ledger with
        | (.ok d, db2) => (.ok d, db2)
        | (.error e, db2) => (.error (.serviceError e), db2)
      else
        (.error (.notReady readiness.reason readiness.tokensSold
          readiness.totalTokens readiness.availableTokens), db)
  | _, _, _, _ => (.error .missingFields, db)

/-- One purchase request together with its external inputs: the ledger
outcome for this call and the generated identifiers. -/
structure PurchaseRequest where
  project_id : Option String
  amount : ℚ
  buyerId : Nat
  ledger : Except String String
  token_id : String
  transaction_id : String

/-- The committed state after one purchase request (result discarded). -/
def applyPurchase (db : DBState) (r : PurchaseRequest) : DBState :=
  (purchaseTokens db r.project_id r.amount r.buyerId r.ledger r.token_id r.transaction_id).2

/-- The committed state after a sequence of purchase requests. -/
def runPurchases (db : DBState) (rs : List PurchaseRequest) : DBState :=
  rs.foldl applyPurchase db

/-- Exactly one `projects` row carries the given project id. -/
def uniqueProjectRow (db : DBState) (pid : String) : Prop :=
  db.projects.countP (fun p => p.project_id = pid) = 1

/-- The supply invariant of the spec: the `available_tokens` of the project is
nonnegative and equals `total_tokens` minus the total of active holdings. -/
def supplyInvariant (db : DBState) (pid : String) : Prop :=
  ∀ p ∈ db.projects, p.project_id = pid →
    0 ≤ p.available_tokens ∧
    p.available_tokens = p.total_tokens - activeHoldingSum db pid

/-- A fully sold-out active project with holders 60 and 40 (spec scenario). -/
def c1State : DBState :=
  ⟨[⟨"P1", "Proj", "d", 100, 0, 10, 60000, 1, "active"⟩],
   [⟨"T1", "P1", 1, 60, 10, 600, "active", "h1"⟩,
    ⟨"T2", "P1", 2, 40, 10, 400, "active", "h2"⟩],
   [], [], []⟩

/-- The distribution response for the spec scenario on `c1State`. -/
def c1Data : DistributionData :=
  ⟨"P1", 60000, 110000, 50000, 15000, 35000, 350, 100,
    [⟨1, 60, 21000⟩, ⟨2, 40, 14000⟩], "0xabc", "completed"⟩

/-- The committed state after the spec-scenario distribution on `c1State`. -/
def c1After : DBState :=
  ⟨[⟨"P1", "Proj", "d", 100, 0, 10, 60000, 1, "completed"⟩],
   [⟨"T1", "P1", 1, 60, 10, 600, "active", "h1"⟩,
    ⟨"T2", "P1", 2, 40, 10, 400, "active", "h2"⟩],
   [],
   [⟨"P1", 50000, 15000, 35000, 350, "completed", some "0xabc"⟩],
   [⟨1, "P1", 60, 21000⟩, ⟨2, "P1", 40, 14000⟩]⟩

/-- An active project with 3 of 10 tokens still available. -/
def saleProject : Project := ⟨"P1", "Proj", "d", 10, 3, 10, 60000, 1, "active"⟩

/-- A store holding just `saleProject` and no holdings. -/
def saleState : DBState := ⟨[saleProject], [], [], [], []⟩

/-- A cancelled, fully sold-out project with one active holder of 100 tokens. -/
def c4State : DBState :=
  ⟨[⟨"P1", "Proj", "d", 100, 0, 10, 60000, 1, "cancelled"⟩],
   [⟨"T1", "P1", 1, 100, 10, 1000, "active", "h1"⟩],
   [], [], []⟩

/-- The first (only) project row of `c4State`. -/
def c4Project : Project := ⟨"P1", "Proj", "d", 100, 0, 10, 60000, 1, "cancelled"⟩

/-- The distribution response produced on `c4State` with newProfit 1000. -/
def c4Data : DistributionData :=
  ⟨"P1", 500, 1500, 1000, 300, 700, 7, 100, [⟨1, 100, 700⟩], "0xh", "completed"⟩

/-- The committed state after distributing on the cancelled project `c4State`. -/
def c4After : DBState :=
  ⟨[⟨"P1", "Proj", "d", 100, 0, 10, 60000, 1, "completed"⟩],
   [⟨"T1", "P1", 1, 100, 10, 1000, "active", "h1"⟩],
   [],
   [⟨"P1", 1000, 300, 700, 7, "completed", some "0xh"⟩],
   [⟨1, "P1", 100, 700⟩]⟩

/-- C1: for a ready project with total_tokens = 100 and two holders with active
holdings 60 and 40, Distribute with newProfit = 50000 computes
adminShare = 15000, userShare = 35000, profitPerToken = 350, per-holder
credits 21000 and 14000, and sets the project status to completed. -/
theorem C1_distribute_scenario :
    distributeProfit c1State "P1" 60000 110000 50000 1 (.ok "0xabc") =
      (.ok c1Data, c1After) := by
  norm_num [distributeProfit, findProject, c1State, c1Data, c1After, tokenHolders,
    activeTokens, insertHolder, adminShareOf, userShareOf, List.find?, List.filter,
    List.foldl]
  simp

/-- C9: CheckReadiness is total at its interface: a failing store query is
converted into a ready = false result whose reason reports the database error
and whose counters are zeroed, rather than propagating the exception. -/
theorem C9_readiness_total_on_store_error (e : String) (pid : String) :
    isProjectReadyForDistribution (.error e) pid =
      ⟨false, "Database error: " ++ e, false, 0, 0, 0, none⟩ := rfl

/-- C2 counterexample: on the ready state `c1State` (which has no distribution
records), a Distribute whose ledger call fails leaves the committed store with
NO distribution record at all — the record inserted with status pending is
rolled back, so it does not remain pending as the claim states. -/
theorem C2_counterexample :
    (distributeProfit c1State "P1" 60000 110000 50000 1 (.error "ledger down")).1 =
      .error "ledger down" ∧
    (distributeProfit c1State "P1" 60000 110000 50000 1
      (.error "ledger down")).2.profit_distributions = [] := by
  norm_num [distributeProfit, findProject, c1State, tokenHolders, activeTokens,
    insertHolder, adminShareOf, userShareOf, List.find?, List.filter, List.foldl]
  simp

/-- C2 amended: if the ledger call fails during Distribute, the whole operation
fails and the enclosing transaction is rolled back, so the committed store is
completely unchanged — in particular no pending Distribution record remains;
a retry starts from the original state. -/
theorem C2_ledger_failure_rolls_back (db : DBState) (pid : String) (ic tr np : ℚ)
    (a : Nat) (e : String) :
    (distributeProfit db pid ic tr np a (.error e)).1.isOk = false ∧
    (distributeProfit db pid ic tr np a (.error e)).2 = db := by
  unfold distributeProfit
  cases h : findProject db pid with
  | none => simp [Except.isOk, Except.toBool]
  | some project =>
    dsimp only
    split_ifs <;> simp [Except.isOk, Except.toBool]

/-- C3 counterexample: on `saleState` a purchase of 2 tokens satisfies every
precondition (amount > 0, project active, 2 ≤ available_tokens = 3), yet when
the ledger call fails the sale does NOT succeed: the whole purchase is rolled
back and the committed store is unchanged (no holding, no decrement, no
transaction record). -/
theorem C3_counterexample :
    (0 : ℚ) < 2 ∧
    findActiveProject saleState "P1" = some saleProject ∧
    (2 : ℚ) ≤ saleProject.available_tokens ∧
    purchaseTokens saleState (some "P1") 2 7 (.error "ledger down") "TOK1" "TXN1" =
      (.error (.ledgerFailure "ledger down"), saleState) := by
  refine ⟨by norm_num, rfl, by norm_num [saleProject], ?_⟩
  norm_num [purchaseTokens, findActiveProject, saleState, saleProject, List.find?]
  simp

/-- C3 amended: a failing ledger call during a purchase aborts the whole sale:
the purchase returns an error and the committed store is unchanged — no
Holding is created, available_tokens keeps its prior value, and no transaction
record is emitted. -/
theorem C3_ledger_failure_aborts_purchase (db : DBState) (pid : Option String)
    (amount : ℚ) (buyer : Nat) (e : String) (tok txn : String) :
    (purchaseTokens db pid amount buyer (.error e) tok txn).1.isOk = false ∧
    (purchaseTokens db pid amount buyer (.error e) tok txn).2 = db := by
  unfold purchaseTokens
  cases pid with
  | none => simp [Except.isOk, Except.toBool]
  | some pid =>
    dsimp only
    split_ifs with h1
    · simp [Except.isOk, Except.toBool]
    · cases h : findActiveProject db pid with
      | none => simp [Except.isOk, Except.toBool]
      | some project =>
        dsimp only
        split_ifs <;> simp [Except.isOk, Except.toBool]

/-- C10: the distribute endpoint rejects a request whose initialCapital,
totalRevenue or newProfit is 0 as a missing-required-fields validation error,
before any readiness check or mutation (the store is returned unchanged, for
every store and ledger outcome). -/
theorem C10_zero_field_rejected (db : DBState) (pid : String) (ic tr np : ℚ)
    (a : Nat) (ledger : Except String String)
    (h : ic = 0 ∨ tr = 0 ∨ np = 0) :
    controllerDistributeProfit db (some pid) (some ic) (some tr) (some np) a ledger =
      (.error .missingFields, db) := by
  unfold controllerDistributeProfit
  rcases h with h | h | h <;> simp [h]

/-- Witness for C10 at a concrete zeroed field. -/
theorem C10_zero_field_rejected_witness :
    controllerDistributeProfit emptyDB (some "P1") (some 0) (some 1) (some 5) 1
      (.ok "h") = (.error .missingFields, emptyDB) :=
  C10_zero_field_rejected emptyDB "P1" 0 1 5 1 (.ok "h") (Or.inl rfl)

/-- C4 counterexample: `c4State` holds a cancelled, fully sold-out project
with an active holder, and a Distribute call on it does NOT fail: it succeeds
and persists its results (status flipped to completed, records written),
because the in-transaction re-check of the engine never tests for cancellation. -/
theorem C4_counterexample :
    (findProject c4State "P1").map Project.status = some "cancelled" ∧
    distributeProfit c4State "P1" 500 1500 1000 1 (.ok "0xh") =
      (.ok c4Data, c4After) := by
  refine ⟨rfl, ?_⟩
  norm_num [distributeProfit, findProject, c4State, c4Data, c4After, tokenHolders,
    activeTokens, insertHolder, adminShareOf, userShareOf, List.find?, List.filter,
    List.foldl]
  simp

/-- C4 amended: inside its transaction, Distribute re-checks only existence,
non-completion, full sell-out and holder existence — not cancellation — so a
Distribute call on a cancelled project with available_tokens = 0 and at least
one active holder succeeds and sets every row of that project to completed. -/
theorem C4_no_cancelled_recheck (db : DBState) (pid : String) (ic tr np : ℚ)
    (a : Nat) (hash : String) (p : Project)
    (hfind : findProject db pid = some p)
    (hcanc : p.status = "cancelled")
    (hsold : ¬p.available_tokens > 0)
    (hhold : tokenHolders db pid ≠ []) :
    (distributeProfit db pid ic tr np a (.ok hash)).1.isOk = true ∧
    ∀ q ∈ (distributeProfit db pid ic tr np a (.ok hash)).2.projects,
      q.project_id = pid → q.status = "completed" := by
  have hnc : ¬p.status = "completed" := by rw [hcanc]; decide
  unfold distributeProfit
  rw [hfind]
  dsimp only
  rw [if_neg hnc, if_neg hsold, if_neg hhold]
  refine ⟨rfl, ?_⟩
  intro q hq hqpid
  obtain ⟨x, hx, rfl⟩ := List.mem_map.mp hq
  by_cases hxp : x.project_id = pid
  · simp [hxp]
  · simp only [if_neg hxp] at hqpid ⊢
    exact absurd hqpid hxp

/-- Witness for the amended C4 theorem on the concrete cancelled state. -/
theorem C4_no_cancelled_recheck_witness :
    (distributeProfit c4State "P1" 500 1500 1000 1 (.ok "0xh")).1.isOk = true ∧
    ∀ q ∈ (distributeProfit c4State "P1" 500 1500 1000 1 (.ok "0xh")).2.projects,
      q.project_id = "P1" → q.status = "completed" :=
  C4_no_cancelled_recheck c4State "P1" 500 1500 1000 1 "0xh" c4Project rfl rfl
    (by norm_num [c4Project])
    (by simp [tokenHolders, activeTokens, c4State, insertHolder, List.filter,
      List.foldl])

/-- C5: CheckReadiness evaluates its five checks in priority order (exists →
not completed → not cancelled → sold out → has an active holder), the first
failing check fixing the reported reason: a missing project reports not-found;
a cancelled project reports the cancellation reason (even when sold out);
ready = true holds exactly when all five checks pass and then the holder count
is reported. -/
theorem C5_readiness_order (db : DBState) (pid : String) :
    ((findProject db pid = none →
        (isProjectReadyForDistribution (.ok db) pid).ready = false ∧
        (isProjectReadyForDistribution (.ok db) pid).reason = "Project not found") ∧
     ∀ p, findProject db pid = some p →
       ((p.status = "cancelled" →
           (isProjectReadyForDistribution (.ok db) pid).ready = false ∧
           (isProjectReadyForDistribution (.ok db) pid).reason =
             "Project is cancelled") ∧
        ((isProjectReadyForDistribution (.ok db) pid).ready = true ↔
           ¬p.status = "completed" ∧ ¬p.status = "cancelled" ∧
           ¬p.available_tokens > 0 ∧ (tokenHolders db pid).length ≠ 0) ∧
        ((isProjectReadyForDistribution (.ok db) pid).ready = true →
           (isProjectReadyForDistribution (.ok db) pid).tokenHolderCount =
             some (tokenHolders db pid).length ∧
           (isProjectReadyForDistribution (.ok db) pid).reason =
             "Project is ready for profit distribution"))) := by
  unfold isProjectReadyForDistribution
  dsimp only
  constructor
  · intro h
    rw [h]
    exact ⟨rfl, rfl⟩
  · intro p h
    rw [h]
    dsimp only
    split_ifs with h1 h2 h3 h4 <;> simp_all

/-- Witness for C5 on a cancelled, sold-out project. -/
theorem C5_readiness_order_witness :
    (isProjectReadyForDistribution (.ok c4State) "P1").ready = false ∧
    (isProjectReadyForDistribution (.ok c4State) "P1").reason =
      "Project is cancelled" :=
  (((C5_readiness_order c4State "P1").2 c4Project rfl).1) rfl

/-- C7: a purchase whose amount exceeds the available supply fails with the
insufficient-tokens error and leaves the whole committed state unchanged: no
holding, no decrement, no transaction record. -/
theorem C7_insufficient_supply (db : DBState) (pid : String) (amount : ℚ)
    (buyer : Nat) (ledger : Except String String) (tok txn : String) (p : Project)
    (hfind : findActiveProject db pid = some p)
    (hpid : ¬pid = "")
    (hpos : 0 < amount)
    (hins : p.available_tokens < amount) :
    purchaseTokens db (some pid) amount buyer ledger tok txn =
      (.error .insufficientTokens, db) := by
  unfold purchaseTokens
  dsimp only
  rw [if_neg (by push_neg; exact ⟨hpid, hpos⟩), hfind]
  dsimp only
  rw [if_pos hins]

/-- Witness for C7: a purchase of 5 against 3 available tokens. -/
theorem C7_insufficient_supply_witness :
    purchaseTokens saleState (some "P1") 5 7 (.ok "h") "TOK" "TXN" =
      (.error .insufficientTokens, saleState) :=
  C7_insufficient_supply saleState "P1" 5 7 (.ok "h") "TOK" "TXN" saleProject rfl
    (by decide) (by norm_num) (by norm_num [saleProject])

/-- C8 (intended property, exact arithmetic): in the exact-rational model of
the split formulas, every successful Distribute conserves the profit:
adminShare + userShare = newProfit exactly, and the per-holder credits sum to
userShare exactly (given a nonzero holder token total).  The source computes
these with IEEE-754 doubles, where the top-level identity already fails
(e.g. newProfit = 3 gives 0.8999999999999999 + 2.0999999999999996). -/
theorem C8_split_conservation_exact (db : DBState) (pid : String) (ic tr np : ℚ)
    (a : Nat) (ledger : Except String String) (d : DistributionData) (db2 : DBState)
    (hrun : distributeProfit db pid ic tr np a ledger = (.ok d, db2))
    (hnz : d.totalUserTokens ≠ 0) :
    d.adminShare + d.userTotalShare = d.newProfit ∧
    (d.userProfits.map UserProfit.profit_amount).sum = d.userTotalShare := by
  unfold distributeProfit at hrun
  cases hf : findProject db pid <;> rw [hf] at hrun
  · simp at hrun
  case some p =>
    dsimp only at hrun
    split_ifs at hrun with h1 h2 h3
    · simp at hrun
    · simp at hrun
    · simp at hrun
    · cases hl : ledger <;> rw [hl] at hrun
      · simp at hrun
      · rename_i hash
        dsimp only at hrun
        rw [Prod.mk.injEq] at hrun
        obtain ⟨hd, _⟩ := hrun
        rw [Except.ok.injEq] at hd
        subst hd
        dsimp only at hnz ⊢
        constructor
        · unfold adminShareOf userShareOf
          ring
        · rw [List.map_map]
          show ((tokenHolders db pid).map (fun h => h.2 *
            (userShareOf np / ((tokenHolders db pid).map Prod.snd).sum))).sum =
            userShareOf np
          rw [List.sum_map_mul_right (tokenHolders db pid) Prod.snd, mul_comm]
          exact div_mul_cancel₀ _ hnz

/-- Witness for the exact-model C8 theorem on the spec scenario. -/
theorem C8_split_conservation_exact_witness :
    c1Data.adminShare + c1Data.userTotalShare = c1Data.newProfit ∧
    (c1Data.userProfits.map UserProfit.profit_amount).sum = c1Data.userTotalShare :=
  C8_split_conservation_exact c1State "P1" 60000 110000 50000 1 (.ok "0xabc")
    c1Data c1After
    (by norm_num [distributeProfit, findProject, c1State, c1Data, c1After,
        tokenHolders, activeTokens, insertHolder, adminShareOf, userShareOf,
        List.find?, List.filter, List.foldl]; simp)
    (by norm_num [c1Data])

/-- In a list with exactly one row for the project id, two member rows that
both carry that id are the same row. -/
theorem unique_mem_eq (l : List Project) (pid : String)
    (hu : l.countP (fun p => p.project_id = pid) = 1)
    {a b : Project} (ha : a ∈ l) (hb : b ∈ l)
    (hpa : a.project_id = pid) (hpb : b.project_id = pid) : a = b := by
  rw [List.countP_eq_length_filter, List.length_eq_one] at hu
  obtain ⟨c, hc⟩ := hu
  have ha' : a ∈ l.filter (fun p => p.project_id = pid) :=
    List.mem_filter.mpr ⟨ha, by simp [hpa]⟩
  have hb' : b ∈ l.filter (fun p => p.project_id = pid) :=
    List.mem_filter.mpr ⟨hb, by simp [hpb]⟩
  rw [hc, List.mem_singleton] at ha' hb'
  rw [ha', hb']

/-- The supply decrement keeps the project id of every row. -/
theorem decrement_keeps_id (pid : String) (amount : ℚ) (p : Project) :
    (if p.project_id = pid then
        { p with available_tokens := p.available_tokens - amount }
      else p).project_id = p.project_id := by
  split_ifs <;> rfl

/-- A committed purchase never changes how many rows carry a project id. -/
theorem uniqueRow_purchaseCommit (db : DBState) (pid pid' : String) (amount : ℚ)
    (buyer : Nat) (project : Project) (hash tok txn : String)
    (hu : uniqueProjectRow db pid) :
    uniqueProjectRow (purchaseCommit db pid' amount buyer project hash tok txn)
      pid := by
  unfold uniqueProjectRow at hu ⊢
  unfold purchaseCommit
  rw [List.countP_map, ← hu]
  have hfun : ((fun p : Project => decide (p.project_id = pid)) ∘
      (fun p => if p.project_id = pid' then
        { p with available_tokens := p.available_tokens - amount }
      else p)) = fun p : Project => decide (p.project_id = pid) := by
    funext a
    simp [Function.comp, decrement_keeps_id]
  rw [hfun]

/-- A committed purchase adds its amount to the active holding sum of its
project (and leaves the sums of other projects unchanged). -/
theorem activeHoldingSum_purchaseCommit (db : DBState) (pid pid' : String)
    (amount : ℚ) (buyer : Nat) (project : Project) (hash tok txn : String) :
    activeHoldingSum (purchaseCommit db pid' amount buyer project hash tok txn)
      pid = activeHoldingSum db pid + (if pid' = pid then amount else 0) := by
  unfold activeHoldingSum activeTokens purchaseCommit
  by_cases hpp : pid' = pid <;> simp [List.filter_append, hpp]

/-- A committed in-bounds purchase preserves the supply invariant. -/
theorem supplyInvariant_purchaseCommit (db : DBState) (pid pid' : String)
    (amount : ℚ) (buyer : Nat) (project : Project) (hash tok txn : String)
    (hu : uniqueProjectRow db pid) (hinv : supplyInvariant db pid)
    (hproj : project ∈ db.projects)
    (hprojid : project.project_id = pid')
    (hamt : amount ≤ project.available_tokens) :
    supplyInvariant (purchaseCommit db pid' amount buyer project hash tok txn)
      pid := by
  intro q hq hqpid
  rw [activeHoldingSum_purchaseCommit]
  obtain ⟨x, hx, hfx⟩ := List.mem_map.mp hq
  have hxid : x.project_id = pid := by
    rw [← hqpid, ← hfx, decrement_keeps_id]
  by_cases hpp : pid' = pid
  · subst hpp
    have hq' : q = { x with available_tokens := x.available_tokens - amount } := by
      rw [← hfx, if_pos hxid]
    have hxproj : x = project := unique_mem_eq db.projects pid' hu hx hproj hxid hprojid
    obtain ⟨hge, heq⟩ := hinv x hx hxid
    subst hq'
    refine ⟨?_, ?_⟩
    · show 0 ≤ x.available_tokens - amount
      have : amount ≤ x.available_tokens := hxproj ▸ hamt
      linarith
    · show x.available_tokens - amount =
        x.total_tokens - (activeHoldingSum db pid' + (if pid' = pid' then amount else 0))
      rw [if_pos rfl, heq]
      ring
  · have hq' : q = x := by
      rw [← hfx, if_neg (fun h => hpp (h.symm.trans hxid))]
    subst hq'
    obtain ⟨hge, heq⟩ := hinv q hx hxid
    rw [if_neg hpp, add_zero]
    exact ⟨hge, heq⟩

/-- One purchase request, whatever its outcome, preserves row uniqueness and
the supply invariant. -/
theorem purchase_step_preserves (db : DBState) (pid : String) (r : PurchaseRequest)
    (hu : uniqueProjectRow db pid) (hinv : supplyInvariant db pid) :
    uniqueProjectRow (applyPurchase db r) pid ∧
    supplyInvariant (applyPurchase db r) pid := by
  unfold applyPurchase purchaseTokens
  cases hp : r.project_id with
  | none => exact ⟨hu, hinv⟩
  | some pid' =>
    dsimp only
    split_ifs with h0
    · exact ⟨hu, hinv⟩
    · cases hf : findActiveProject db pid' with
      | none => exact ⟨hu, hinv⟩
      | some project =>
        dsimp only
        split_ifs with hlt
        · exact ⟨hu, hinv⟩
        · cases hl : r.ledger with
          | error e => exact ⟨hu, hinv⟩
          | ok hash =>
            dsimp only
            have hmem := List.mem_of_find?_eq_some hf
            have hpred := List.find?_some hf
            simp only [decide_eq_true_eq] at hpred
            exact ⟨uniqueRow_purchaseCommit db pid pid' r.amount r.buyerId project
                hash r.token_id r.transaction_id hu,
              supplyInvariant_purchaseCommit db pid pid' r.amount r.buyerId project
                hash r.token_id r.transaction_id hu hinv hmem hpred.1
                (not_lt.mp hlt)⟩

/-- A whole sequence of purchase requests preserves row uniqueness and the
supply invariant. -/
theorem runPurchases_preserves (pid : String) (rs : List PurchaseRequest) :
    ∀ db : DBState, uniqueProjectRow db pid → supplyInvariant db pid →
      uniqueProjectRow (runPurchases db rs) pid ∧
      supplyInvariant (runPurchases db rs) pid := by
  induction rs with
  | nil => exact fun db hu hinv => ⟨hu, hinv⟩
  | cons r rs ih =>
    intro db hu hinv
    have h := purchase_step_preserves db pid r hu hinv
    exact ih (applyPurchase db r) h.1 h.2

/-- C6: for every sequence of purchase requests against a freshly created
project with total_tokens = available_tokens = T, the supply invariant holds
after each operation: available_tokens stays nonnegative and equals
total_tokens minus the sum of the active holdings of the project. -/
theorem C6_supply_invariant (pid nm desc : String) (T price cap : ℚ)
    (adminId : Nat) (hT : 0 ≤ T) (rs : List PurchaseRequest) :
    supplyInvariant
      (runPurchases (createProject emptyDB pid nm desc T price cap adminId).1 rs)
      pid := by
  have hu : uniqueProjectRow
      (createProject emptyDB pid nm desc T price cap adminId).1 pid := by
    simp [uniqueProjectRow, createProject, emptyDB]
  have hinv : supplyInvariant
      (createProject emptyDB pid nm desc T price cap adminId).1 pid := by
    intro p hp hpid
    simp only [createProject, emptyDB, List.nil_append, List.mem_singleton] at hp
    subst hp
    refine ⟨hT, ?_⟩
    simp [activeHoldingSum, activeTokens, createProject, emptyDB]
  exact (runPurchases_preserves pid rs _ hu hinv).2

/-- Witness for C6: two in-bounds purchases against a fresh 100-token project. -/
theorem C6_supply_invariant_witness :
    supplyInvariant
      (runPurchases (createProject emptyDB "P1" "n" "d" 100 10 1000 1).1
        [⟨some "P1", 60, 1, .ok "h1", "T1", "X1"⟩,
         ⟨some "P1", 40, 2, .ok "h2", "T2", "X2"⟩]) "P1" :=
  C6_supply_invariant "P1" "n" "d" 100 10 1000 1 (by norm_num)
    [⟨some "P1", 60, 1, .ok "h1", "T1", "X1"⟩,
     ⟨some "P1", 40, 2, .ok "h2", "T2", "X2"⟩]

end BlockchainBackend
